import Mathlib

/-!
Shallow embedding of the ACC_Telemetry core: the shared-memory segment
decoders in `acc_telemetry/core/shared_memory.py` and the caching /
rate-limiting / reconnect session layer in `acc_telemetry/core/telemetry.py`.

Machine integers are modelled as `Nat`/`Int` with explicit `% 2^w`;
32-bit floats are kept as their raw little-endian bit patterns (`Nat`),
since no behaviour under scrutiny depends on float arithmetic.  Times are
modelled as exact rationals.  Python exceptions are modelled with
`Except`; code that catches all exceptions is modelled by the
corresponding total function.
-/

set_option maxRecDepth 8192

/-- A fixed-size shared-memory buffer: a byte function together with its
declared size.  Each byte is read modulo 256, mirroring the fact that a
Python `mmap` yields byte values in 0..255. -/
structure Buffer where
  byte : Nat → Nat
  size : Nat

/-- The little-endian 32-bit word starting at a byte offset, exactly as
`struct.unpack` assembles it from four bytes. -/
def word32 (b : Buffer) (off : Nat) : Nat :=
  b.byte off % 256 + 256 * (b.byte (off + 1) % 256) +
    65536 * (b.byte (off + 2) % 256) + 16777216 * (b.byte (off + 3) % 256)

/-- Two's-complement reading of a 32-bit word, as `struct.unpack("i", ...)`
produces it. -/
def toInt32 (w : Nat) : Int :=
  if w < 2147483648 then (w : Int) else (w : Int) - 4294967296

/-- Failure modes of the decode / attach layer, standing for the Python
exceptions (`struct.error`, `ValueError` from an `Enum` lookup,
`UnicodeDecodeError`, `FileNotFoundError` on attach). -/
inductive Err
  | truncated
  | badEnum
  | badUtf8
  | notFound
  deriving DecidableEq

/-- Whether a fallible computation succeeded, i.e. raised no exception. -/
def okB {α : Type} : Except Err α → Bool
  | .ok _ => true
  | .error _ => false

/-- `accSM.unpack_value` with format `"i"`: seek to `offset` and read 4
bytes; `struct.unpack` raises when fewer than 4 bytes remain before the
end of the mapping. -/
def unpack_int (b : Buffer) (off : Nat) : Except Err Int :=
  if off + 4 ≤ b.size then .ok (toInt32 (word32 b off)) else .error .truncated

/-- `accSM.unpack_value` with format `"f"`: same bounds behaviour; the
float is kept as its raw 32-bit pattern, which never fails to parse. -/
def unpack_f32 (b : Buffer) (off : Nat) : Except Err Nat :=
  if off + 4 ≤ b.size then .ok (word32 b off) else .error .truncated

/-- `accSM.unpack_array` with format `"i"`: `count` consecutive 4-byte
signed reads starting at `offset`. -/
def unpack_array (b : Buffer) (off : Nat) (count : Nat) : Except Err (List Int) :=
  (List.range count).mapM (fun i => unpack_int b (off + 4 * i))

/-- A UTF-8 continuation byte (0x80..0xBF). -/
def isCont (c : Nat) : Bool := 128 ≤ c && c ≤ 191

/-- Strict UTF-8 decoding to a list of code points, mirroring Python's
`bytes.decode("utf-8")`: rejects stray continuation bytes, overlong
encodings, surrogates and code points beyond U+10FFFF.  The fuel argument
only serves termination; one byte of fuel per input byte suffices. -/
def utf8DecodeAux : Nat → List Nat → Option (List Nat)
  | _, [] => some []
  | 0, _ :: _ => none
  | fuel + 1, b :: rest =>
    if b ≤ 127 then
      (utf8DecodeAux fuel rest).map (fun cps => b :: cps)
    else if 194 ≤ b && b ≤ 223 then
      match rest with
      | c1 :: rest2 =>
        if isCont c1 then
          (utf8DecodeAux fuel rest2).map (fun cps => ((b - 192) * 64 + (c1 - 128)) :: cps)
        else none
      | [] => none
    else if 224 ≤ b && b ≤ 239 then
      match rest with
      | c1 :: c2 :: rest3 =>
        if ((if b = 224 then 160 else 128) ≤ c1 && c1 ≤ (if b = 237 then 159 else 191))
            && isCont c2 then
          (utf8DecodeAux fuel rest3).map
            (fun cps => ((b - 224) * 4096 + (c1 - 128) * 64 + (c2 - 128)) :: cps)
        else none
      | _ => none
    else if 240 ≤ b && b ≤ 244 then
      match rest with
      | c1 :: c2 :: c3 :: rest4 =>
        if ((if b = 240 then 144 else 128) ≤ c1 && c1 ≤ (if b = 244 then 143 else 191))
            && isCont c2 && isCont c3 then
          (utf8DecodeAux fuel rest4).map
            (fun cps =>
              ((b - 240) * 262144 + (c1 - 128) * 4096 + (c2 - 128) * 64 + (c3 - 128)) :: cps)
        else none
      | _ => none
    else none

/-- Strict UTF-8 decoding of a whole byte list. -/
def utf8Decode (bs : List Nat) : Option (List Nat) := utf8DecodeAux bs.length bs

/-- The bytes of a fixed-length field: `mmap.read(n)` after seeking to
`off` returns at most the bytes remaining before the end of the mapping
(no error on a short read). -/
def fieldBytes (b : Buffer) (off n : Nat) : List Nat :=
  (List.range (min n (b.size - off))).map (fun i => b.byte (off + i) % 256)

/-- `accSM.unpack_string`: seek (raises past the end of the mapping), read
`maxLen` bytes, decode them all as strict UTF-8 (raising
`UnicodeDecodeError` on invalid input), then keep only the part before the
first NUL character.  The result is the list of decoded code points. -/
def unpack_string (b : Buffer) (off maxLen : Nat) : Except Err (List Nat) :=
  if off ≤ b.size then
    match utf8Decode (fieldBytes b off maxLen) with
    | none => .error .badUtf8
    | some cps => .ok (if 0 ∈ cps then cps.takeWhile (fun c => c != 0) else cps)
  else .error .truncated

/-- `ACC_STATUS` from `shared_memory.py`. -/
inductive ACC_STATUS
  | ACC_OFF
  | ACC_REPLAY
  | ACC_LIVE
  | ACC_PAUSE
  deriving DecidableEq

/-- The integer code of each `ACC_STATUS` member. -/
def ACC_STATUS.toInt : ACC_STATUS → Int
  | .ACC_OFF => 0
  | .ACC_REPLAY => 1
  | .ACC_LIVE => 2
  | .ACC_PAUSE => 3

/-- `ACC_STATUS(value)`: the Enum lookup returns the member with that
value and raises `ValueError` on any other code. -/
def ACC_STATUS.ofInt (v : Int) : Except Err ACC_STATUS :=
  if v = 0 then .ok .ACC_OFF
  else if v = 1 then .ok .ACC_REPLAY
  else if v = 2 then .ok .ACC_LIVE
  else if v = 3 then .ok .ACC_PAUSE
  else .error .badEnum

/-- `ACC_SESSION_TYPE` from `shared_memory.py`. -/
inductive ACC_SESSION_TYPE
  | ACC_UNKNOW
  | ACC_PRACTICE
  | ACC_QUALIFY
  | ACC_RACE
  | ACC_HOTLAP
  | ACC_TIME_ATTACK
  | ACC_DRIFT
  | ACC_DRAG
  | ACC_HOTSTINT
  | ACC_HOTLAPSUPERPOLE
  deriving DecidableEq

/-- The integer code of each `ACC_SESSION_TYPE` member. -/
def ACC_SESSION_TYPE.toInt : ACC_SESSION_TYPE → Int
  | .ACC_UNKNOW => -1
  | .ACC_PRACTICE => 0
  | .ACC_QUALIFY => 1
  | .ACC_RACE => 2
  | .ACC_HOTLAP => 3
  | .ACC_TIME_ATTACK => 4
  | .ACC_DRIFT => 5
  | .ACC_DRAG => 6
  | .ACC_HOTSTINT => 7
  | .ACC_HOTLAPSUPERPOLE => 8

/-- `ACC_SESSION_TYPE(value)`: Enum lookup, raising on unknown codes. -/
def ACC_SESSION_TYPE.ofInt (v : Int) : Except Err ACC_SESSION_TYPE :=
  if v = -1 then .ok .ACC_UNKNOW
  else if v = 0 then .ok .ACC_PRACTICE
  else if v = 1 then .ok .ACC_QUALIFY
  else if v = 2 then .ok .ACC_RACE
  else if v = 3 then .ok .ACC_HOTLAP
  else if v = 4 then .ok .ACC_TIME_ATTACK
  else if v = 5 then .ok .ACC_DRIFT
  else if v = 6 then .ok .ACC_DRAG
  else if v = 7 then .ok .ACC_HOTSTINT
  else if v = 8 then .ok .ACC_HOTLAPSUPERPOLE
  else .error .badEnum

/-- `ACC_FLAG_TYPE` from `shared_memory.py`. -/
inductive ACC_FLAG_TYPE
  | ACC_NO_FLAG
  | ACC_BLUE_FLAG
  | ACC_YELLOW_FLAG
  | ACC_BLACK_FLAG
  | ACC_WHITE_FLAG
  | ACC_CHECKERED_FLAG
  | ACC_PENALTY_FLAG
  | ACC_GREEN_FLAG
  | ACC_ORANGE_FLAG
  deriving DecidableEq

/-- The integer code of each `ACC_FLAG_TYPE` member. -/
def ACC_FLAG_TYPE.toInt : ACC_FLAG_TYPE → Int
  | .ACC_NO_FLAG => 0
  | .ACC_BLUE_FLAG => 1
  | .ACC_YELLOW_FLAG => 2
  | .ACC_BLACK_FLAG => 3
  | .ACC_WHITE_FLAG => 4
  | .ACC_CHECKERED_FLAG => 5
  | .ACC_PENALTY_FLAG => 6
  | .ACC_GREEN_FLAG => 7
  | .ACC_ORANGE_FLAG => 8

/-- `ACC_FLAG_TYPE(value)`: Enum lookup, raising on unknown codes. -/
def ACC_FLAG_TYPE.ofInt (v : Int) : Except Err ACC_FLAG_TYPE :=
  if v = 0 then .ok .ACC_NO_FLAG
  else if v = 1 then .ok .ACC_BLUE_FLAG
  else if v = 2 then .ok .ACC_YELLOW_FLAG
  else if v = 3 then .ok .ACC_BLACK_FLAG
  else if v = 4 then .ok .ACC_WHITE_FLAG
  else if v = 5 then .ok .ACC_CHECKERED_FLAG
  else if v = 6 then .ok .ACC_PENALTY_FLAG
  else if v = 7 then .ok .ACC_GREEN_FLAG
  else if v = 8 then .ok .ACC_ORANGE_FLAG
  else .error .badEnum

/-- `ACC_PENALTY_TYPE` from `shared_memory.py`. -/
inductive ACC_PENALTY_TYPE
  | UnknownValue
  | No_penalty
  | DriveThrough_Cutting
  | StopAndGo_10_Cutting
  | StopAndGo_20_Cutting
  | StopAndGo_30_Cutting
  | Disqualified_Cutting
  | RemoveBestLaptime_Cutting
  | DriveThrough_PitSpeeding
  | StopAndGo_10_PitSpeeding
  | StopAndGo_20_PitSpeeding
  | StopAndGo_30_PitSpeeding
  | Disqualified_PitSpeeding
  | RemoveBestLaptime_PitSpeeding
  | Disqualified_IgnoredMandatoryPit
  | PostRaceTime
  | Disqualified_Trolling
  | Disqualified_PitEntry
  | Disqualified_PitExit
  | Disqualified_WrongWay_old
  | DriveThrough_IgnoredDriverStint
  | Disqualified_IgnoredDriverStint
  | Disqualified_ExceededDriverStintLimit
  | Disqualified_WrongWay
  deriving DecidableEq

/-- The integer code of each `ACC_PENALTY_TYPE` member. -/
def ACC_PENALTY_TYPE.toInt : ACC_PENALTY_TYPE → Int
  | .UnknownValue => -1
  | .No_penalty => 0
  | .DriveThrough_Cutting => 1
  | .StopAndGo_10_Cutting => 2
  | .StopAndGo_20_Cutting => 3
  | .StopAndGo_30_Cutting => 4
  | .Disqualified_Cutting => 5
  | .RemoveBestLaptime_Cutting => 6
  | .DriveThrough_PitSpeeding => 7
  | .StopAndGo_10_PitSpeeding => 8
  | .StopAndGo_20_PitSpeeding => 9
  | .StopAndGo_30_PitSpeeding => 10
  | .Disqualified_PitSpeeding => 11
  | .RemoveBestLaptime_PitSpeeding => 12
  | .Disqualified_IgnoredMandatoryPit => 13
  | .PostRaceTime => 14
  | .Disqualified_Trolling => 15
  | .Disqualified_PitEntry => 16
  | .Disqualified_PitExit => 17
  | .Disqualified_WrongWay_old => 18
  | .DriveThrough_IgnoredDriverStint => 19
  | .Disqualified_IgnoredDriverStint => 20
  | .Disqualified_ExceededDriverStintLimit => 21
  | .Disqualified_WrongWay => 22

/-- `ACC_PENALTY_TYPE(value)`: Enum lookup, raising on unknown codes. -/
def ACC_PENALTY_TYPE.ofInt (v : Int) : Except Err ACC_PENALTY_TYPE :=
  if v = -1 then .ok .UnknownValue
  else if v = 0 then .ok .No_penalty
  else if v = 1 then .ok .DriveThrough_Cutting
  else if v = 2 then .ok .StopAndGo_10_Cutting
  else if v = 3 then .ok .StopAndGo_20_Cutting
  else if v = 4 then .ok .StopAndGo_30_Cutting
  else if v = 5 then .ok .Disqualified_Cutting
  else if v = 6 then .ok .RemoveBestLaptime_Cutting
  else if v = 7 then .ok .DriveThrough_PitSpeeding
  else if v = 8 then .ok .StopAndGo_10_PitSpeeding
  else if v = 9 then .ok .StopAndGo_20_PitSpeeding
  else if v = 10 then .ok .StopAndGo_30_PitSpeeding
  else if v = 11 then .ok .Disqualified_PitSpeeding
  else if v = 12 then .ok .RemoveBestLaptime_PitSpeeding
  else if v = 13 then .ok .Disqualified_IgnoredMandatoryPit
  else if v = 14 then .ok .PostRaceTime
  else if v = 15 then .ok .Disqualified_Trolling
  else if v = 16 then .ok .Disqualified_PitEntry
  else if v = 17 then .ok .Disqualified_PitExit
  else if v = 18 then .ok .Disqualified_WrongWay_old
  else if v = 19 then .ok .DriveThrough_IgnoredDriverStint
  else if v = 20 then .ok .Disqualified_IgnoredDriverStint
  else if v = 21 then .ok .Disqualified_ExceededDriverStintLimit
  else if v = 22 then .ok .Disqualified_WrongWay
  else .error .badEnum

/-- `penalty_workarround` from `shared_memory.py`: try the Enum lookup and
map a `ValueError` to the fixed `UnknownValue` member. -/
def penalty_workarround (v : Int) : ACC_PENALTY_TYPE :=
  match ACC_PENALTY_TYPE.ofInt v with
  | .ok p => p
  | .error _ => .UnknownValue

/-- `ACC_TRACK_GRIP_STATUS` from `shared_memory.py`. -/
inductive ACC_TRACK_GRIP_STATUS
  | ACC_GREEN
  | ACC_FAST
  | ACC_OPTIMUM
  | ACC_GREASY
  | ACC_DAMP
  | ACC_WET
  | ACC_FLOODED
  deriving DecidableEq

/-- The integer code of each `ACC_TRACK_GRIP_STATUS` member. -/
def ACC_TRACK_GRIP_STATUS.toInt : ACC_TRACK_GRIP_STATUS → Int
  | .ACC_GREEN => 0
  | .ACC_FAST => 1
  | .ACC_OPTIMUM => 2
  | .ACC_GREASY => 3
  | .ACC_DAMP => 4
  | .ACC_WET => 5
  | .ACC_FLOODED => 6

/-- `ACC_TRACK_GRIP_STATUS(value)`: Enum lookup, raising on unknown codes. -/
def ACC_TRACK_GRIP_STATUS.ofInt (v : Int) : Except Err ACC_TRACK_GRIP_STATUS :=
  if v = 0 then .ok .ACC_GREEN
  else if v = 1 then .ok .ACC_FAST
  else if v = 2 then .ok .ACC_OPTIMUM
  else if v = 3 then .ok .ACC_GREASY
  else if v = 4 then .ok .ACC_DAMP
  else if v = 5 then .ok .ACC_WET
  else if v = 6 then .ok .ACC_FLOODED
  else .error .badEnum

/-- `ACC_RAIN_INTENSITY` from `shared_memory.py`. -/
inductive ACC_RAIN_INTENSITY
  | ACC_NO_RAIN
  | ACC_DRIZZLE
  | ACC_LIGHT_RAIN
  | ACC_MEDIUM_RAIN
  | ACC_HEAVY_RAIN
  | ACC_THUNDERSTORM
  deriving DecidableEq

/-- The integer code of each `ACC_RAIN_INTENSITY` member. -/
def ACC_RAIN_INTENSITY.toInt : ACC_RAIN_INTENSITY → Int
  | .ACC_NO_RAIN => 0
  | .ACC_DRIZZLE => 1
  | .ACC_LIGHT_RAIN => 2
  | .ACC_MEDIUM_RAIN => 3
  | .ACC_HEAVY_RAIN => 4
  | .ACC_THUNDERSTORM => 5

/-- `ACC_RAIN_INTENSITY(value)`: Enum lookup, raising on unknown codes. -/
def ACC_RAIN_INTENSITY.ofInt (v : Int) : Except Err ACC_RAIN_INTENSITY :=
  if v = 0 then .ok .ACC_NO_RAIN
  else if v = 1 then .ok .ACC_DRIZZLE
  else if v = 2 then .ok .ACC_LIGHT_RAIN
  else if v = 3 then .ok .ACC_MEDIUM_RAIN
  else if v = 4 then .ok .ACC_HEAVY_RAIN
  else if v = 5 then .ok .ACC_THUNDERSTORM
  else .error .badEnum

/-- A 32-bit float field, kept as its raw bit pattern. -/
abbrev F32 := Nat

/-- `Vector3f` from `shared_memory.py`. -/
structure Vector3f where
  x : F32
  y : F32
  z : F32
  deriving DecidableEq

/-- `Wheels` from `shared_memory.py`: one value per wheel, fixed
front-left / front-right / rear-left / rear-right order. -/
structure Wheels where
  front_left : F32
  front_right : F32
  rear_left : F32
  rear_right : F32
  deriving DecidableEq

/-- `ContactPoint` from `shared_memory.py`: a 3-vector per wheel. -/
structure ContactPoint where
  front_left : Vector3f
  front_right : Vector3f
  rear_left : Vector3f
  rear_right : Vector3f
  deriving DecidableEq

/-- `CarDamage` from `shared_memory.py`. -/
structure CarDamage where
  front : F32
  rear : F32
  left : F32
  right : F32
  center : F32
  deriving DecidableEq

/-- `PhysicsMap` from `shared_memory.py`. -/
structure PhysicsMap where
  packed_id : Int
  gas : F32
  brake : F32
  fuel : F32
  gear : Int
  rpm : Int
  steer_angle : F32
  speed_kmh : F32
  velocity : Vector3f
  g_force : Vector3f
  wheel_slip : Wheels
  wheel_pressure : Wheels
  wheel_angular_s : Wheels
  tyre_core_temp : Wheels
  suspension_travel : Wheels
  tc : F32
  heading : F32
  pitch : F32
  roll : F32
  car_damage : CarDamage
  pit_limiter_on : Bool
  abs : F32
  autoshifter_on : Bool
  turbo_boost : F32
  air_temp : F32
  road_temp : F32
  local_angular_vel : Vector3f
  final_ff : F32
  brake_temp : Wheels
  clutch : F32
  is_ai_controlled : Bool
  tyre_contact_point : ContactPoint
  tyre_contact_normal : ContactPoint
  tyre_contact_heading : ContactPoint
  brake_bias : F32
  local_velocity : Vector3f
  slip_ratio : Wheels
  slip_angle : Wheels
  suspension_damage : Wheels
  water_temp : F32
  brake_pressure : Wheels
  front_brake_compound : Int
  rear_brake_compound : Int
  pad_life : Wheels
  disc_life : Wheels
  ignition_on : Bool
  starter_engine_on : Bool
  is_engine_running : Bool
  kerb_vibration : F32
  slip_vibration : F32
  g_vibration : F32
  abs_vibration : F32
  deriving DecidableEq

/-- `GraphicsMap` from `shared_memory.py`.  String fields hold the decoded
code points. -/
structure GraphicsMap where
  packed_id : Int
  status : ACC_STATUS
  session_type : ACC_SESSION_TYPE
  current_time_str : List Nat
  last_time_str : List Nat
  best_time_str : List Nat
  last_sector_time_str : List Nat
  completed_lap : Int
  position : Int
  current_time : Int
  last_time : Int
  best_time : Int
  session_time_left : F32
  distance_traveled : F32
  is_in_pit : Bool
  current_sector_index : Int
  last_sector_time : Int
  number_of_laps : Int
  tyre_compound : List Nat
  normalized_car_position : F32
  active_cars : Int
  car_coordinates : List Vector3f
  car_id : List Int
  player_car_id : Int
  penalty_time : F32
  flag : ACC_FLAG_TYPE
  penalty : ACC_PENALTY_TYPE
  ideal_line_on : Bool
  is_in_pit_lane : Bool
  mandatory_pit_done : Bool
  wind_speed : F32
  wind_direction : F32
  is_setup_menu_visible : Bool
  main_display_index : Int
  secondary_display_index : Int
  tc_level : Int
  tc_cut_level : Int
  engine_map : Int
  abs_level : Int
  fuel_per_lap : F32
  rain_light : Bool
  flashing_light : Bool
  light_stage : Int
  exhaust_temp : F32
  wiper_stage : Int
  driver_stint_total_time_left : Int
  driver_stint_time_left : Int
  rain_tyres : Bool
  session_index : Int
  used_fuel : F32
  delta_lap_time_str : List Nat
  delta_lap_time : Int
  estimated_lap_time_str : List Nat
  estimated_lap_time : Int
  is_delta_positive : Bool
  is_valid_lap : Bool
  fuel_estimated_laps : F32
  track_status : List Nat
  missing_mandatory_pits : Int
  clock : F32
  direction_light_left : Bool
  direction_light_right : Bool
  global_yellow : Bool
  global_yellow_s1 : Bool
  global_yellow_s2 : Bool
  global_yellow_s3 : Bool
  global_white : Bool
  global_green : Bool
  global_chequered : Bool
  global_red : Bool
  mfd_tyre_set : Int
  mfd_fuel_to_add : F32
  mfd_tyre_pressure : Wheels
  track_grip_status : ACC_TRACK_GRIP_STATUS
  rain_intensity : ACC_RAIN_INTENSITY
  rain_intensity_in_10min : ACC_RAIN_INTENSITY
  rain_intensity_in_30min : ACC_RAIN_INTENSITY
  current_tyre_set : Int
  strategy_tyre_set : Int
  gap_ahead : Int
  gap_behind : Int
  deriving DecidableEq

/-- `StaticsMap` from `shared_memory.py`. -/
structure StaticsMap where
  sm_version : List Nat
  ac_version : List Nat
  number_of_session : Int
  num_cars : Int
  car_model : List Nat
  track : List Nat
  player_name : List Nat
  player_surname : List Nat
  player_nick : List Nat
  sector_count : Int
  max_rpm : Int
  max_fuel : F32
  penalty_enabled : Bool
  aid_fuel_rate : F32
  aid_tyre_rate : F32
  aid_mechanical_damage : F32
  aid_stability : F32
  aid_auto_clutch : Bool
  pit_window_start : Int
  pit_window_end : Int
  is_online : Bool
  dry_tyres_name : List Nat
  wet_tyres_name : List Nat
  deriving DecidableEq

/-- `ACC_map` from `shared_memory.py`: the three decoded segments. -/
structure ACC_map where
  Physics : PhysicsMap
  Graphics : GraphicsMap
  Static : StaticsMap
  deriving DecidableEq

/-- `read_physic_map` from `shared_memory.py`: every `unpack_value` call in
source order, including the reads of fields not used by ACC. -/
def read_physic_map (b : Buffer) : Except Err PhysicsMap := do
  let packed_id ← unpack_int b 0
  let gas ← unpack_f32 b 4
  let brake ← unpack_f32 b 8
  let fuel ← unpack_f32 b 12
  let gear ← unpack_int b 16
  let rpm ← unpack_int b 20
  let steer_angle ← unpack_f32 b 24
  let speed_kmh ← unpack_f32 b 28
  let velocity_x ← unpack_f32 b 32
  let velocity_y ← unpack_f32 b 36
  let velocity_z ← unpack_f32 b 40
  let g_force_x ← unpack_f32 b 44
  let g_force_y ← unpack_f32 b 48
  let g_force_z ← unpack_f32 b 52
  let wheel_slip_fl ← unpack_f32 b 56
  let wheel_slip_fr ← unpack_f32 b 60
  let wheel_slip_rl ← unpack_f32 b 64
  let wheel_slip_rr ← unpack_f32 b 68
  let _ ← unpack_f32 b 72
  let _ ← unpack_f32 b 76
  let _ ← unpack_f32 b 80
  let _ ← unpack_f32 b 84
  let wheel_pressure_fl ← unpack_f32 b 88
  let wheel_pressure_fr ← unpack_f32 b 92
  let wheel_pressure_rl ← unpack_f32 b 96
  let wheel_pressure_rr ← unpack_f32 b 100
  let wheel_angular_speed_fl ← unpack_f32 b 104
  let wheel_angular_speed_fr ← unpack_f32 b 108
  let wheel_angular_speed_rl ← unpack_f32 b 112
  let wheel_angular_speed_rr ← unpack_f32 b 116
  let _ ← unpack_f32 b 120
  let _ ← unpack_f32 b 124
  let _ ← unpack_f32 b 128
  let _ ← unpack_f32 b 132
  let _ ← unpack_f32 b 136
  let _ ← unpack_f32 b 140
  let _ ← unpack_f32 b 144
  let _ ← unpack_f32 b 148
  let tyre_core_temp_fl ← unpack_f32 b 152
  let tyre_core_temp_fr ← unpack_f32 b 156
  let tyre_core_temp_rl ← unpack_f32 b 160
  let tyre_core_temp_rr ← unpack_f32 b 164
  let _ ← unpack_f32 b 168
  let _ ← unpack_f32 b 172
  let _ ← unpack_f32 b 176
  let _ ← unpack_f32 b 180
  let suspension_travel_fl ← unpack_f32 b 184
  let suspension_travel_fr ← unpack_f32 b 188
  let suspension_travel_rl ← unpack_f32 b 192
  let suspension_travel_rr ← unpack_f32 b 196
  let _ ← unpack_int b 200
  let tc ← unpack_f32 b 204
  let heading ← unpack_f32 b 208
  let pitch ← unpack_f32 b 212
  let roll ← unpack_f32 b 216
  let car_damage_front ← unpack_f32 b 220
  let car_damage_rear ← unpack_f32 b 224
  let car_damage_left ← unpack_f32 b 228
  let car_damage_right ← unpack_f32 b 232
  let car_damage_center ← unpack_f32 b 236
  let pit_limiter_raw ← unpack_int b 240
  let abs_value ← unpack_f32 b 244
  let autoshifter_raw ← unpack_int b 248
  let turbo_boost ← unpack_f32 b 252
  let air_temp ← unpack_f32 b 256
  let road_temp ← unpack_f32 b 260
  let local_angular_vel_x ← unpack_f32 b 264
  let local_angular_vel_y ← unpack_f32 b 268
  let local_angular_vel_z ← unpack_f32 b 272
  let final_ff ← unpack_f32 b 276
  let _ ← unpack_f32 b 280
  let _ ← unpack_int b 284
  let _ ← unpack_int b 288
  let _ ← unpack_int b 292
  let _ ← unpack_int b 296
  let _ ← unpack_int b 300
  let _ ← unpack_f32 b 304
  let _ ← unpack_f32 b 308
  let _ ← unpack_f32 b 312
  let _ ← unpack_f32 b 316
  let _ ← unpack_f32 b 320
  let _ ← unpack_f32 b 324
  let brake_temp_fl ← unpack_f32 b 328
  let brake_temp_fr ← unpack_f32 b 332
  let brake_temp_rl ← unpack_f32 b 336
  let brake_temp_rr ← unpack_f32 b 340
  let clutch ← unpack_f32 b 344
  let is_ai_controlled_raw ← unpack_int b 348
  let tyre_contact_point_fl_x ← unpack_f32 b 352
  let tyre_contact_point_fl_y ← unpack_f32 b 356
  let tyre_contact_point_fl_z ← unpack_f32 b 360
  let tyre_contact_point_fr_x ← unpack_f32 b 364
  let tyre_contact_point_fr_y ← unpack_f32 b 368
  let tyre_contact_point_fr_z ← unpack_f32 b 372
  let tyre_contact_point_rl_x ← unpack_f32 b 376
  let tyre_contact_point_rl_y ← unpack_f32 b 380
  let tyre_contact_point_rl_z ← unpack_f32 b 384
  let tyre_contact_point_rr_x ← unpack_f32 b 388
  let tyre_contact_point_rr_y ← unpack_f32 b 392
  let tyre_contact_point_rr_z ← unpack_f32 b 396
  let tyre_contact_normal_fl_x ← unpack_f32 b 400
  let tyre_contact_normal_fl_y ← unpack_f32 b 404
  let tyre_contact_normal_fl_z ← unpack_f32 b 408
  let tyre_contact_normal_fr_x ← unpack_f32 b 412
  let tyre_contact_normal_fr_y ← unpack_f32 b 416
  let tyre_contact_normal_fr_z ← unpack_f32 b 420
  let tyre_contact_normal_rl_x ← unpack_f32 b 424
  let tyre_contact_normal_rl_y ← unpack_f32 b 428
  let tyre_contact_normal_rl_z ← unpack_f32 b 432
  let tyre_contact_normal_rr_x ← unpack_f32 b 436
  let tyre_contact_normal_rr_y ← unpack_f32 b 440
  let tyre_contact_normal_rr_z ← unpack_f32 b 444
  let tyre_contact_heading_fl_x ← unpack_f32 b 448
  let tyre_contact_heading_fl_y ← unpack_f32 b 452
  let tyre_contact_heading_fl_z ← unpack_f32 b 456
  let tyre_contact_heading_fr_x ← unpack_f32 b 460
  let tyre_contact_heading_fr_y ← unpack_f32 b 464
  let tyre_contact_heading_fr_z ← unpack_f32 b 468
  let tyre_contact_heading_rl_x ← unpack_f32 b 472
  let tyre_contact_heading_rl_y ← unpack_f32 b 476
  let tyre_contact_heading_rl_z ← unpack_f32 b 480
  let tyre_contact_heading_rr_x ← unpack_f32 b 484
  let tyre_contact_heading_rr_y ← unpack_f32 b 488
  let tyre_contact_heading_rr_z ← unpack_f32 b 492
  let brake_bias ← unpack_f32 b 496
  let local_velocity_x ← unpack_f32 b 500
  let local_velocity_y ← unpack_f32 b 504
  let local_velocity_z ← unpack_f32 b 508
  let _ ← unpack_int b 512
  let _ ← unpack_int b 516
  let _ ← unpack_int b 520
  let _ ← unpack_f32 b 524
  let _ ← unpack_f32 b 528
  let _ ← unpack_f32 b 532
  let _ ← unpack_f32 b 536
  let _ ← unpack_f32 b 540
  let _ ← unpack_f32 b 544
  let _ ← unpack_f32 b 548
  let _ ← unpack_f32 b 552
  let _ ← unpack_f32 b 556
  let _ ← unpack_f32 b 560
  let _ ← unpack_f32 b 564
  let _ ← unpack_f32 b 568
  let slip_ratio_fl ← unpack_f32 b 572
  let slip_ratio_fr ← unpack_f32 b 576
  let slip_ratio_rl ← unpack_f32 b 580
  let slip_ratio_rr ← unpack_f32 b 584
  let slip_angle_fl ← unpack_f32 b 588
  let slip_angle_fr ← unpack_f32 b 592
  let slip_angle_rl ← unpack_f32 b 596
  let slip_angle_rr ← unpack_f32 b 600
  let _ ← unpack_int b 604
  let _ ← unpack_int b 608
  let suspension_damage_fl ← unpack_f32 b 612
  let suspension_damage_fr ← unpack_f32 b 616
  let suspension_damage_rl ← unpack_f32 b 620
  let suspension_damage_rr ← unpack_f32 b 624
  let _ ← unpack_f32 b 628
  let _ ← unpack_f32 b 632
  let _ ← unpack_f32 b 636
  let _ ← unpack_f32 b 640
  let water_temp ← unpack_f32 b 644
  let brake_pressure_fl ← unpack_f32 b 648
  let brake_pressure_fr ← unpack_f32 b 652
  let brake_pressure_rl ← unpack_f32 b 656
  let brake_pressure_rr ← unpack_f32 b 660
  let front_brake_compound ← unpack_int b 664
  let rear_brake_compound ← unpack_int b 668
  let pad_life_fl ← unpack_f32 b 672
  let pad_life_fr ← unpack_f32 b 676
  let pad_life_rl ← unpack_f32 b 680
  let pad_life_rr ← unpack_f32 b 684
  let disc_life_fl ← unpack_f32 b 688
  let disc_life_fr ← unpack_f32 b 692
  let disc_life_rl ← unpack_f32 b 696
  let disc_life_rr ← unpack_f32 b 700
  let ignition_raw ← unpack_int b 704
  let starter_raw ← unpack_int b 708
  let engine_running_raw ← unpack_int b 712
  let kerb_vibration ← unpack_f32 b 716
  let slip_vibration ← unpack_f32 b 720
  let g_vibration ← unpack_f32 b 724
  let abs_vibration ← unpack_f32 b 728
  return {
    packed_id := packed_id
    gas := gas
    brake := brake
    fuel := fuel
    gear := gear
    rpm := rpm
    steer_angle := steer_angle
    speed_kmh := speed_kmh
    velocity := ⟨velocity_x, velocity_y, velocity_z⟩
    g_force := ⟨g_force_x, g_force_y, g_force_z⟩
    wheel_slip := ⟨wheel_slip_fl, wheel_slip_fr, wheel_slip_rl, wheel_slip_rr⟩
    wheel_pressure := ⟨wheel_pressure_fl, wheel_pressure_fr, wheel_pressure_rl, wheel_pressure_rr⟩
    wheel_angular_s := ⟨wheel_angular_speed_fl, wheel_angular_speed_fr,
      wheel_angular_speed_rl, wheel_angular_speed_rr⟩
    tyre_core_temp := ⟨tyre_core_temp_fl, tyre_core_temp_fr, tyre_core_temp_rl, tyre_core_temp_rr⟩
    suspension_travel := ⟨suspension_travel_fl, suspension_travel_fr,
      suspension_travel_rl, suspension_travel_rr⟩
    tc := tc
    heading := heading
    pitch := pitch
    roll := roll
    car_damage := ⟨car_damage_front, car_damage_rear, car_damage_left,
      car_damage_right, car_damage_center⟩
    pit_limiter_on := pit_limiter_raw == 1
    abs := abs_value
    autoshifter_on := autoshifter_raw == 1
    turbo_boost := turbo_boost
    air_temp := air_temp
    road_temp := road_temp
    local_angular_vel := ⟨local_angular_vel_x, local_angular_vel_y, local_angular_vel_z⟩
    final_ff := final_ff
    brake_temp := ⟨brake_temp_fl, brake_temp_fr, brake_temp_rl, brake_temp_rr⟩
    clutch := clutch
    is_ai_controlled := is_ai_controlled_raw == 1
    tyre_contact_point := ⟨⟨tyre_contact_point_fl_x, tyre_contact_point_fl_y, tyre_contact_point_fl_z⟩,
      ⟨tyre_contact_point_fr_x, tyre_contact_point_fr_y, tyre_contact_point_fr_z⟩,
      ⟨tyre_contact_point_rl_x, tyre_contact_point_rl_y, tyre_contact_point_rl_z⟩,
      ⟨tyre_contact_point_rr_x, tyre_contact_point_rr_y, tyre_contact_point_rr_z⟩⟩
    tyre_contact_normal := ⟨⟨tyre_contact_normal_fl_x, tyre_contact_normal_fl_y, tyre_contact_normal_fl_z⟩,
      ⟨tyre_contact_normal_fr_x, tyre_contact_normal_fr_y, tyre_contact_normal_fr_z⟩,
      ⟨tyre_contact_normal_rl_x, tyre_contact_normal_rl_y, tyre_contact_normal_rl_z⟩,
      ⟨tyre_contact_normal_rr_x, tyre_contact_normal_rr_y, tyre_contact_normal_rr_z⟩⟩
    tyre_contact_heading := ⟨⟨tyre_contact_heading_fl_x, tyre_contact_heading_fl_y, tyre_contact_heading_fl_z⟩,
      ⟨tyre_contact_heading_fr_x, tyre_contact_heading_fr_y, tyre_contact_heading_fr_z⟩,
      ⟨tyre_contact_heading_rl_x, tyre_contact_heading_rl_y, tyre_contact_heading_rl_z⟩,
      ⟨tyre_contact_heading_rr_x, tyre_contact_heading_rr_y, tyre_contact_heading_rr_z⟩⟩
    brake_bias := brake_bias
    local_velocity := ⟨local_velocity_x, local_velocity_y, local_velocity_z⟩
    slip_ratio := ⟨slip_ratio_fl, slip_ratio_fr, slip_ratio_rl, slip_ratio_rr⟩
    slip_angle := ⟨slip_angle_fl, slip_angle_fr, slip_angle_rl, slip_angle_rr⟩
    suspension_damage := ⟨suspension_damage_fl, suspension_damage_fr,
      suspension_damage_rl, suspension_damage_rr⟩
    water_temp := water_temp
    brake_pressure := ⟨brake_pressure_fl, brake_pressure_fr, brake_pressure_rl, brake_pressure_rr⟩
    front_brake_compound := front_brake_compound
    rear_brake_compound := rear_brake_compound
    pad_life := ⟨pad_life_fl, pad_life_fr, pad_life_rl, pad_life_rr⟩
    disc_life := ⟨disc_life_fl, disc_life_fr, disc_life_rl, disc_life_rr⟩
    ignition_on := ignition_raw == 1
    starter_engine_on := starter_raw == 1
    is_engine_running := engine_running_raw == 1
    kerb_vibration := kerb_vibration
    slip_vibration := slip_vibration
    g_vibration := g_vibration
    abs_vibration := abs_vibration }

/-- `read_graphics_map` from `shared_memory.py`: every read in source
order.  The enum-backed fields status, session type, flag, track grip and
the rain intensities use the raising `Enum` lookup; only the penalty field
is wrapped in try/except mapping a `ValueError` to `UnknownValue`. -/
def read_graphics_map (b : Buffer) : Except Err GraphicsMap := do
  let packed_id ← unpack_int b 0
  let status_value ← unpack_int b 4
  let status ← ACC_STATUS.ofInt status_value
  let session_type_value ← unpack_int b 8
  let session_type ← ACC_SESSION_TYPE.ofInt session_type_value
  let current_time_str ← unpack_string b 12 15
  let last_time_str ← unpack_string b 27 15
  let best_time_str ← unpack_string b 42 15
  let last_sector_time_str ← unpack_string b 57 15
  let completed_lap ← unpack_int b 72
  let position ← unpack_int b 76
  let current_time ← unpack_int b 80
  let last_time ← unpack_int b 84
  let best_time ← unpack_int b 88
  let session_time_left ← unpack_f32 b 92
  let distance_traveled ← unpack_f32 b 96
  let is_in_pit_raw ← unpack_int b 100
  let current_sector_index ← unpack_int b 104
  let last_sector_time ← unpack_int b 108
  let number_of_laps ← unpack_int b 112
  let tyre_compound ← unpack_string b 116 33
  let normalized_car_position ← unpack_f32 b 152
  let active_cars ← unpack_int b 156
  let car_coordinates ← (List.range 60).mapM (fun i => do
    let cx ← unpack_f32 b (160 + i * 12)
    let cy ← unpack_f32 b (164 + i * 12)
    let cz ← unpack_f32 b (168 + i * 12)
    return (⟨cx, cy, cz⟩ : Vector3f))
  let car_id ← unpack_array b 880 60
  let player_car_id ← unpack_int b 1120
  let penalty_time ← unpack_f32 b 1124
  let flag_value ← unpack_int b 1128
  let flag ← ACC_FLAG_TYPE.ofInt flag_value
  let penalty_value ← unpack_int b 1132
  let penalty := penalty_workarround penalty_value
  let ideal_line_raw ← unpack_int b 1136
  let is_in_pit_lane_raw ← unpack_int b 1140
  let mandatory_pit_done_raw ← unpack_int b 1144
  let wind_speed ← unpack_f32 b 1148
  let wind_direction ← unpack_f32 b 1152
  let is_setup_menu_visible_raw ← unpack_int b 1156
  let main_display_index ← unpack_int b 1160
  let secondary_display_index ← unpack_int b 1164
  let tc_level ← unpack_int b 1168
  let tc_cut_level ← unpack_int b 1172
  let engine_map ← unpack_int b 1176
  let abs_level ← unpack_int b 1180
  let fuel_per_lap ← unpack_f32 b 1184
  let rain_light_raw ← unpack_int b 1188
  let flashing_light_raw ← unpack_int b 1192
  let light_stage ← unpack_int b 1196
  let exhaust_temp ← unpack_f32 b 1200
  let wiper_stage ← unpack_int b 1204
  let driver_stint_total_time_left ← unpack_int b 1208
  let driver_stint_time_left ← unpack_int b 1212
  let rain_tyres_raw ← unpack_int b 1216
  let session_index ← unpack_int b 1220
  let used_fuel ← unpack_f32 b 1224
  let delta_lap_time_str ← unpack_string b 1228 15
  let delta_lap_time ← unpack_int b 1244
  let estimated_lap_time_str ← unpack_string b 1248 15
  let estimated_lap_time ← unpack_int b 1264
  let is_delta_positive_raw ← unpack_int b 1268
  let is_valid_lap_raw ← unpack_int b 1272
  let fuel_estimated_laps ← unpack_f32 b 1276
  let track_status ← unpack_string b 1280 33
  let missing_mandatory_pits ← unpack_int b 1316
  let clock ← unpack_f32 b 1320
  let direction_light_left_raw ← unpack_int b 1324
  let direction_light_right_raw ← unpack_int b 1328
  let global_yellow_raw ← unpack_int b 1332
  let global_yellow_s1_raw ← unpack_int b 1336
  let global_yellow_s2_raw ← unpack_int b 1340
  let global_yellow_s3_raw ← unpack_int b 1344
  let global_white_raw ← unpack_int b 1348
  let global_green_raw ← unpack_int b 1352
  let global_chequered_raw ← unpack_int b 1356
  let global_red_raw ← unpack_int b 1360
  let mfd_tyre_set ← unpack_int b 1364
  let mfd_fuel_to_add ← unpack_f32 b 1368
  let mfd_tyre_pressure_fl ← unpack_f32 b 1372
  let mfd_tyre_pressure_fr ← unpack_f32 b 1376
  let mfd_tyre_pressure_rl ← unpack_f32 b 1380
  let mfd_tyre_pressure_rr ← unpack_f32 b 1384
  let track_grip_status_value ← unpack_int b 1388
  let track_grip_status ← ACC_TRACK_GRIP_STATUS.ofInt track_grip_status_value
  let rain_intensity_value ← unpack_int b 1392
  let rain_intensity ← ACC_RAIN_INTENSITY.ofInt rain_intensity_value
  let rain_intensity_in_10min_value ← unpack_int b 1396
  let rain_intensity_in_10min ← ACC_RAIN_INTENSITY.ofInt rain_intensity_in_10min_value
  let rain_intensity_in_30min_value ← unpack_int b 1400
  let rain_intensity_in_30min ← ACC_RAIN_INTENSITY.ofInt rain_intensity_in_30min_value
  let current_tyre_set ← unpack_int b 1404
  let strategy_tyre_set ← unpack_int b 1408
  let gap_ahead ← unpack_int b 1412
  let gap_behind ← unpack_int b 1416
  return {
    packed_id := packed_id
    status := status
    session_type := session_type
    current_time_str := current_time_str
    last_time_str := last_time_str
    best_time_str := best_time_str
    last_sector_time_str := last_sector_time_str
    completed_lap := completed_lap
    position := position
    current_time := current_time
    last_time := last_time
    best_time := best_time
    session_time_left := session_time_left
    distance_traveled := distance_traveled
    is_in_pit := is_in_pit_raw == 1
    current_sector_index := current_sector_index
    last_sector_time := last_sector_time
    number_of_laps := number_of_laps
    tyre_compound := tyre_compound
    normalized_car_position := normalized_car_position
    active_cars := active_cars
    car_coordinates := car_coordinates
    car_id := car_id
    player_car_id := player_car_id
    penalty_time := penalty_time
    flag := flag
    penalty := penalty
    ideal_line_on := ideal_line_raw == 1
    is_in_pit_lane := is_in_pit_lane_raw == 1
    mandatory_pit_done := mandatory_pit_done_raw == 1
    wind_speed := wind_speed
    wind_direction := wind_direction
    is_setup_menu_visible := is_setup_menu_visible_raw == 1
    main_display_index := main_display_index
    secondary_display_index := secondary_display_index
    tc_level := tc_level
    tc_cut_level := tc_cut_level
    engine_map := engine_map
    abs_level := abs_level
    fuel_per_lap := fuel_per_lap
    rain_light := rain_light_raw == 1
    flashing_light := flashing_light_raw == 1
    light_stage := light_stage
    exhaust_temp := exhaust_temp
    wiper_stage := wiper_stage
    driver_stint_total_time_left := driver_stint_total_time_left
    driver_stint_time_left := driver_stint_time_left
    rain_tyres := rain_tyres_raw == 1
    session_index := session_index
    used_fuel := used_fuel
    delta_lap_time_str := delta_lap_time_str
    delta_lap_time := delta_lap_time
    estimated_lap_time_str := estimated_lap_time_str
    estimated_lap_time := estimated_lap_time
    is_delta_positive := is_delta_positive_raw == 1
    is_valid_lap := is_valid_lap_raw == 1
    fuel_estimated_laps := fuel_estimated_laps
    track_status := track_status
    missing_mandatory_pits := missing_mandatory_pits
    clock := clock
    direction_light_left := direction_light_left_raw == 1
    direction_light_right := direction_light_right_raw == 1
    global_yellow := global_yellow_raw == 1
    global_yellow_s1 := global_yellow_s1_raw == 1
    global_yellow_s2 := global_yellow_s2_raw == 1
    global_yellow_s3 := global_yellow_s3_raw == 1
    global_white := global_white_raw == 1
    global_green := global_green_raw == 1
    global_chequered := global_chequered_raw == 1
    global_red := global_red_raw == 1
    mfd_tyre_set := mfd_tyre_set
    mfd_fuel_to_add := mfd_fuel_to_add
    mfd_tyre_pressure := ⟨mfd_tyre_pressure_fl, mfd_tyre_pressure_fr,
      mfd_tyre_pressure_rl, mfd_tyre_pressure_rr⟩
    track_grip_status := track_grip_status
    rain_intensity := rain_intensity
    rain_intensity_in_10min := rain_intensity_in_10min
    rain_intensity_in_30min := rain_intensity_in_30min
    current_tyre_set := current_tyre_set
    strategy_tyre_set := strategy_tyre_set
    gap_ahead := gap_ahead
    gap_behind := gap_behind }

/-- `read_static_map` from `shared_memory.py`: every read in source order.
Note the unaligned `num_cars` offset (34) faithfully copied from source. -/
def read_static_map (b : Buffer) : Except Err StaticsMap := do
  let sm_version ← unpack_string b 0 15
  let ac_version ← unpack_string b 15 15
  let number_of_session ← unpack_int b 30
  let num_cars ← unpack_int b 34
  let car_model ← unpack_string b 38 33
  let track ← unpack_string b 71 33
  let player_name ← unpack_string b 104 33
  let player_surname ← unpack_string b 137 33
  let player_nick ← unpack_string b 170 33
  let sector_count ← unpack_int b 204
  let max_rpm ← unpack_int b 208
  let max_fuel ← unpack_f32 b 212
  let penalty_enabled_raw ← unpack_int b 216
  let aid_fuel_rate ← unpack_f32 b 220
  let aid_tyre_rate ← unpack_f32 b 224
  let aid_mechanical_damage ← unpack_f32 b 228
  let aid_stability ← unpack_f32 b 232
  let aid_auto_clutch_raw ← unpack_int b 236
  let pit_window_start ← unpack_int b 240
  let pit_window_end ← unpack_int b 244
  let is_online_raw ← unpack_int b 248
  let dry_tyres_name ← unpack_string b 252 33
  let wet_tyres_name ← unpack_string b 285 33
  return {
    sm_version := sm_version
    ac_version := ac_version
    number_of_session := number_of_session
    num_cars := num_cars
    car_model := car_model
    track := track
    player_name := player_name
    player_surname := player_surname
    player_nick := player_nick
    sector_count := sector_count
    max_rpm := max_rpm
    max_fuel := max_fuel
    penalty_enabled := penalty_enabled_raw == 1
    aid_fuel_rate := aid_fuel_rate
    aid_tyre_rate := aid_tyre_rate
    aid_mechanical_damage := aid_mechanical_damage
    aid_stability := aid_stability
    aid_auto_clutch := aid_auto_clutch_raw == 1
    pit_window_start := pit_window_start
    pit_window_end := pit_window_end
    is_online := is_online_raw == 1
    dry_tyres_name := dry_tyres_name
    wet_tyres_name := wet_tyres_name }

/-- The state of an `accSharedMemory` holder: one optional mapping handle
per segment.  `none` models a field still holding Python `None`; `some ()`
models an open `mmap` handle onto the named segment. -/
structure accSharedMemory where
  physics_sm : Option Unit
  graphics_sm : Option Unit
  static_sm : Option Unit
  deriving DecidableEq

/-- `accSharedMemory.__init__`: all three handles start unattached. -/
def accSharedMemory.mk0 : accSharedMemory := ⟨none, none, none⟩

/-- The OS environment one read cycle runs against: whether each named
segment can be attached right now, and the bytes currently present in each
segment (what an open mapping reads this cycle). -/
structure AttachEnv where
  physics_ok : Bool
  graphics_ok : Bool
  static_ok : Bool
  physics_buf : Buffer
  graphics_buf : Buffer
  static_buf : Buffer

/-- Result of one `read_shared_memory` call: the value or the exception
that propagated, together with the holder state left behind — Python
exceptions propagate after the partial mutation of `self`. -/
structure SMReadOut where
  result : Except Err ACC_map
  handles : accSharedMemory

/-- `accSharedMemory.read_shared_memory`: attach each still-unattached
segment lazily (physics, then graphics, then static; an unavailable
segment raises, leaving the handles attached so far in place), then decode
the three segments in a fixed order. -/
def accSharedMemory.read_shared_memory (h : accSharedMemory) (env : AttachEnv) : SMReadOut :=
  match h.physics_sm, env.physics_ok with
  | none, false => ⟨.error .notFound, h⟩
  | hp, pok =>
    let h1 : accSharedMemory :=
      { h with physics_sm := if hp.isSome then hp else if pok then some () else none }
    match h1.graphics_sm, env.graphics_ok with
    | none, false => ⟨.error .notFound, h1⟩
    | hg, gok =>
      let h2 : accSharedMemory :=
        { h1 with graphics_sm := if hg.isSome then hg else if gok then some () else none }
      match h2.static_sm, env.static_ok with
      | none, false => ⟨.error .notFound, h2⟩
      | hs, sok =>
        let h3 : accSharedMemory :=
          { h2 with static_sm := if hs.isSome then hs else if sok then some () else none }
        match read_physic_map env.physics_buf with
        | .error e => ⟨.error e, h3⟩
        | .ok p =>
          match read_graphics_map env.graphics_buf with
          | .error e => ⟨.error e, h3⟩
          | .ok g =>
            match read_static_map env.static_buf with
            | .error e => ⟨.error e, h3⟩
            | .ok st => ⟨.ok ⟨p, g, st⟩, h3⟩

/-- `accSharedMemory.close`: close and drop every open handle. -/
def accSharedMemory.closeSM (_ : accSharedMemory) : accSharedMemory := ⟨none, none, none⟩

/-- `TelemetryData` from `telemetry.py`: the flattened consumer-facing
sample.  Float fields carry raw 32-bit patterns; times are rationals. -/
structure TelemetryData where
  timestamp : ℚ
  speed : F32
  rpm : Int
  gear : Int
  fuel : F32
  throttle : F32
  brake : F32
  clutch : F32
  tire_pressure_fl : F32
  tire_pressure_fr : F32
  tire_pressure_rl : F32
  tire_pressure_rr : F32
  tire_temp_fl : F32
  tire_temp_fr : F32
  tire_temp_rl : F32
  tire_temp_rr : F32
  brake_temp_fl : F32
  brake_temp_fr : F32
  brake_temp_rl : F32
  brake_temp_rr : F32
  suspension_travel_fl : F32
  suspension_travel_fr : F32
  suspension_travel_rl : F32
  suspension_travel_rr : F32
  acceleration_x : F32
  acceleration_y : F32
  acceleration_z : F32
  steer_angle : F32
  engine_temp : F32
  turbo_boost : F32
  velocity_x : F32
  velocity_y : F32
  velocity_z : F32
  wheel_slip_fl : F32
  wheel_slip_fr : F32
  wheel_slip_rl : F32
  wheel_slip_rr : F32
  drs : Int
  tc : F32
  abs : F32
  lap_time : Int
  last_lap : Int
  best_lap : Int
  deriving DecidableEq

/-- The `TelemetryData(...)` constructor call inside
`ACCTelemetry.get_telemetry`: field-by-field flattening of the decoded
`ACC_map`.  The `drs` field is the literal constant 0 in source
("DRS在ACC中未使用" — DRS is unused in ACC). -/
def toTelemetryData (t : ℚ) (sm : ACC_map) : TelemetryData :=
  { timestamp := t
    speed := sm.Physics.speed_kmh
    rpm := sm.Physics.rpm
    gear := sm.Physics.gear
    fuel := sm.Physics.fuel
    throttle := sm.Physics.gas
    brake := sm.Physics.brake
    clutch := sm.Physics.clutch
    tire_pressure_fl := sm.Physics.wheel_pressure.front_left
    tire_pressure_fr := sm.Physics.wheel_pressure.front_right
    tire_pressure_rl := sm.Physics.wheel_pressure.rear_left
    tire_pressure_rr := sm.Physics.wheel_pressure.rear_right
    tire_temp_fl := sm.Physics.tyre_core_temp.front_left
    tire_temp_fr := sm.Physics.tyre_core_temp.front_right
    tire_temp_rl := sm.Physics.tyre_core_temp.rear_left
    tire_temp_rr := sm.Physics.tyre_core_temp.rear_right
    brake_temp_fl := sm.Physics.brake_temp.front_left
    brake_temp_fr := sm.Physics.brake_temp.front_right
    brake_temp_rl := sm.Physics.brake_temp.rear_left
    brake_temp_rr := sm.Physics.brake_temp.rear_right
    suspension_travel_fl := sm.Physics.suspension_travel.front_left
    suspension_travel_fr := sm.Physics.suspension_travel.front_right
    suspension_travel_rl := sm.Physics.suspension_travel.rear_left
    suspension_travel_rr := sm.Physics.suspension_travel.rear_right
    acceleration_x := sm.Physics.g_force.x
    acceleration_y := sm.Physics.g_force.y
    acceleration_z := sm.Physics.g_force.z
    steer_angle := sm.Physics.steer_angle
    engine_temp := sm.Physics.water_temp
    turbo_boost := sm.Physics.turbo_boost
    velocity_x := sm.Physics.velocity.x
    velocity_y := sm.Physics.velocity.y
    velocity_z := sm.Physics.velocity.z
    wheel_slip_fl := sm.Physics.wheel_slip.front_left
    wheel_slip_fr := sm.Physics.wheel_slip.front_right
    wheel_slip_rl := sm.Physics.wheel_slip.rear_left
    wheel_slip_rr := sm.Physics.wheel_slip.rear_right
    drs := 0
    tc := sm.Physics.tc
    abs := sm.Physics.abs
    lap_time := sm.Graphics.current_time
    last_lap := sm.Graphics.last_time
    best_lap := sm.Graphics.best_time }

/-- The mutable state of an `ACCTelemetry` session.  The Python float
constant `0.05` (the 50 ms minimum update interval) is the exact rational
1/20 here; the reconnect backoff constant is the integer 5 (seconds). -/
structure ACCTelemetry where
  asm : Option accSharedMemory
  connected : Bool
  last_data : Option TelemetryData
  last_read_time : ℚ
  min_update_interval : ℚ
  last_connect_attempt : ℚ

/-- `ACCTelemetry.__init__`. -/
def ACCTelemetry.init : ACCTelemetry :=
  { asm := none
    connected := false
    last_data := none
    last_read_time := 0
    min_update_interval := 1/20
    last_connect_attempt := 0 }

/-- `ACCTelemetry.connect`: construct a fresh `accSharedMemory` holder —
which attaches nothing — and record the connected flag.  `ok` stands for
the construction finishing in time; on failure only `_connected` is
cleared, and no exception escapes (the body is wrapped in try/except). -/
def ACCTelemetry.connect (s : ACCTelemetry) (ok : Bool) : Bool × ACCTelemetry :=
  if ok then (true, { s with asm := some accSharedMemory.mk0, connected := true })
  else (false, { s with connected := false })

/-- `ACCTelemetry.is_connected`. -/
def ACCTelemetry.is_connected (s : ACCTelemetry) : Bool :=
  s.connected && s.asm.isSome

/-- `ACCTelemetry.get_telemetry`: re-check the connection, run the shared
memory read (whose lazy attaches mutate the holder even when the read then
fails), and catch every exception as a `None` result. -/
def ACCTelemetry.get_telemetry (s : ACCTelemetry) (env : AttachEnv) (t : ℚ) :
    Option TelemetryData × ACCTelemetry :=
  if s.is_connected then
    match s.asm with
    | none => (none, s)
    | some h =>
      let r := h.read_shared_memory env
      let s2 := { s with asm := some r.handles }
      match r.result with
      | .ok m => (some (toTelemetryData t m), s2)
      | .error _ => (none, s2)
  else (none, s)

/-- Result of one `ACCTelemetry.read_data` call: the returned value, the
session state left behind, whether a real underlying shared-memory read
was performed, and whether a (re)connect attempt was made. -/
structure ReadOut where
  out : Option TelemetryData
  state : ACCTelemetry
  didRead : Bool
  didConnectAttempt : Bool

/-- One `ACCTelemetry.read_data` call at time `t`.  `env` supplies the OS
behaviour of this cycle: whether a connect would succeed and what the
segments contain. -/
def ACCTelemetry.read_data (s : ACCTelemetry) (connect_ok : Bool) (env : AttachEnv) (t : ℚ) :
    ReadOut :=
  if t - s.last_read_time < s.min_update_interval then
    ⟨s.last_data, s, false, false⟩
  else
    let s1 := { s with last_read_time := t }
    if s1.is_connected then
      let g := s1.get_telemetry env t
      let s2 := if (g.1).isSome then { g.2 with last_data := g.1 } else g.2
      ⟨s2.last_data, s2, true, false⟩
    else
      if 5 < t - s1.last_connect_attempt then
        let s2 := { s1 with last_connect_attempt := t }
        let c := s2.connect connect_ok
        ⟨(c.2).last_data, c.2, false, true⟩
      else
        ⟨s1.last_data, s1, false, false⟩

/-- `ACCTelemetry.close`: calls `self.asm.close()` inside try/except.  If
`asm` is still `None` the `AttributeError` is swallowed and nothing
changes; otherwise the holder closes its three handles.  Neither
`_connected` nor `_last_data` is touched. -/
def ACCTelemetry.close (s : ACCTelemetry) : ACCTelemetry :=
  { s with asm := s.asm.map (fun h => h.closeSM) }

/-- An all-zero buffer of a given size. -/
def zeroBuf (n : Nat) : Buffer := ⟨fun _ => 0, n⟩

/-- All-zero physics segment (732 bytes, the declared size). -/
def physZeroBuf : Buffer := zeroBuf 732

/-- All-zero graphics segment (1420 bytes, the declared size). -/
def graphicsZeroBuf : Buffer := zeroBuf 1420

/-- All-zero static segment (318 bytes, the declared size). -/
def staticZeroBuf : Buffer := zeroBuf 318

/-- A graphics segment whose status field (offset 4) holds the undefined
enum code 4; every other byte is zero. -/
def graphicsStatus4Buf : Buffer := ⟨fun i => if i = 4 then 4 else 0, 1420⟩

/-- A graphics segment whose flag field (offset 1128) holds the undefined
enum code 9; every other byte is zero. -/
def graphicsFlag9Buf : Buffer := ⟨fun i => if i = 1128 then 9 else 0, 1420⟩

/-- An 11-byte string field holding the bytes of "GT3", a NUL, then
"garbage" (g a r b a g e). -/
def gt3Buf : Buffer :=
  ⟨fun i => [71, 84, 51, 0, 103, 97, 114, 98, 97, 103, 101].getD i 0, 11⟩

/-- A 4-byte string field of 0xFF bytes: no NUL, and not valid UTF-8. -/
def ffBuf : Buffer := ⟨fun _ => 255, 4⟩

/-- A 5-byte string field of ASCII letter A bytes: no NUL, valid UTF-8. -/
def aBuf : Buffer := ⟨fun _ => 65, 5⟩

/-- An environment where all three segments attach and hold zero bytes. -/
def envAllZero : AttachEnv :=
  ⟨true, true, true, physZeroBuf, graphicsZeroBuf, staticZeroBuf⟩

/-- An environment where the graphics segment cannot be attached. -/
def envGraphicsDown : AttachEnv :=
  ⟨true, false, true, physZeroBuf, graphicsZeroBuf, staticZeroBuf⟩

/-- An environment where all segments attach but the graphics segment now
holds an undefined status code, so decoding it raises. -/
def envGraphicsBad : AttachEnv :=
  ⟨true, true, true, physZeroBuf, graphicsStatus4Buf, staticZeroBuf⟩

/-- A holder with all three segments already attached. -/
def attachedSM : accSharedMemory := ⟨some (), some (), some ()⟩

/-- A concrete telemetry sample (all numeric fields zero). -/
def sampleZero : TelemetryData :=
  ⟨0, 0, 0, 0, 0, 0, 0, 0, 0, 0, 0, 0, 0, 0, 0, 0, 0, 0, 0, 0, 0, 0,
    0, 0, 0, 0, 0, 0, 0, 0, 0, 0, 0, 0, 0, 0, 0, 0, 0, 0, 0, 0, 0⟩

/-- A connected session with attached handles and no cached sample yet. -/
def sessionConnected : ACCTelemetry :=
  { asm := some attachedSM
    connected := true
    last_data := none
    last_read_time := 0
    min_update_interval := 1/20
    last_connect_attempt := 0 }

/-- A connected session holding a cached sample, last read at time 100. -/
def sessionCached : ACCTelemetry :=
  { asm := some attachedSM
    connected := true
    last_data := some sampleZero
    last_read_time := 100
    min_update_interval := 1/20
    last_connect_attempt := 0 }

@[simp]
theorem okB_ok {α : Type} (a : α) : okB (.ok a) = true := rfl

@[simp]
theorem okB_error {α : Type} (e : Err) : okB (.error e : Except Err α) = false := rfl

@[simp]
theorem except_bind_ok {α β : Type} (a : α) (f : α → Except Err β) :
    ((Except.ok a : Except Err α) >>= f) = f a := rfl

@[simp]
theorem except_bind_error {α β : Type} (e : Err) (f : α → Except Err β) :
    ((Except.error e : Except Err α) >>= f) = .error e := rfl

@[simp]
theorem except_pure {α : Type} (a : α) : (pure a : Except Err α) = .ok a := rfl

theorem unpack_int_ok {b : Buffer} {off : Nat} (h : off + 4 ≤ b.size) :
    unpack_int b off = .ok (toInt32 (word32 b off)) := by
  simp [unpack_int, h]

theorem unpack_f32_ok {b : Buffer} {off : Nat} (h : off + 4 ≤ b.size) :
    unpack_f32 b off = .ok (word32 b off) := by
  simp [unpack_f32, h]

/-- C10: on every successful read cycle, whatever the shared-memory
buffers contain, the consumer-facing sample's `drs` field is the constant
0 — it is never derived from the telemetry bytes. -/
theorem c10_drs_constant_zero : ∀ (t : ℚ) (m : ACC_map), (toTelemetryData t m).drs = 0 :=
  fun _ _ => rfl

/-- C6 counterexample: a successful `connect()` from the fresh session
leaves all three segment handles unattached — `connect()` does not attach
the physics, graphics or static segment; attachment only happens lazily
inside the first read.  This refutes the claim that `connect()` attaches
all three segments. -/
theorem c6_counterexample :
    (ACCTelemetry.init.connect true).1 = true ∧
    (ACCTelemetry.init.connect true).2.asm = some accSharedMemory.mk0 ∧
    accSharedMemory.mk0.physics_sm = none ∧
    accSharedMemory.mk0.graphics_sm = none ∧
    accSharedMemory.mk0.static_sm = none :=
  ⟨rfl, rfl, rfl, rfl, rfl⟩

/-- C6 amended: `connect()` never raises; it records the connected or
disconnected state according to whether construction succeeded, and in
either case attaches no segment — on success the session holds a fresh
holder with all three handles unattached, on failure the previous holder
is kept unchanged. -/
theorem c6_amended : ∀ (s : ACCTelemetry) (ok : Bool),
    (s.connect ok).1 = ok ∧
    (s.connect ok).2.connected = ok ∧
    (ok = true → (s.connect ok).2.asm = some accSharedMemory.mk0) ∧
    (ok = false → (s.connect ok).2.asm = s.asm) := by
  intro s ok
  cases ok <;> simp [ACCTelemetry.connect]

/-- Witness for C6: the amended theorem applied to a failing connect on
the fresh session. -/
theorem c6_witness : (ACCTelemetry.init.connect false).2.asm = ACCTelemetry.init.asm :=
  (c6_amended ACCTelemetry.init false).2.2.2 rfl

/-- C5 counterexample: after `close()` on a session holding a cached
sample, `read_data` still returns the pre-close cached sample — the cache
is not cleared by `close()`.  This refutes the claim that after `close()`
a subsequent call does not return the pre-close cached sample. -/
theorem c5_counterexample :
    ((ACCTelemetry.close sessionCached).read_data true envAllZero 100).out = some sampleZero := by
  have h : (100 : ℚ) - (ACCTelemetry.close sessionCached).last_read_time <
      (ACCTelemetry.close sessionCached).min_update_interval := by
    norm_num [ACCTelemetry.close, sessionCached]
  simp only [ACCTelemetry.read_data, if_pos h]
  rfl

/-- C5 amended: `close()` releases the segment handles (the holder's three
handles are all dropped) but leaves the cached last-good sample and the
connected flag untouched, so subsequent calls can still serve the
pre-close cached sample. -/
theorem c5_amended : ∀ s : ACCTelemetry,
    (ACCTelemetry.close s).last_data = s.last_data ∧
    (ACCTelemetry.close s).connected = s.connected ∧
    (s.asm.isSome = true → (ACCTelemetry.close s).asm = some accSharedMemory.mk0) := by
  intro s
  refine ⟨rfl, rfl, fun h => ?_⟩
  cases hasm : s.asm with
  | none => rw [hasm] at h; cases h
  | some hh => simp [ACCTelemetry.close, hasm, accSharedMemory.closeSM, accSharedMemory.mk0]

/-- Witness for C5: the amended theorem applied to the concrete cached
session. -/
theorem c5_witness : (ACCTelemetry.close sessionCached).asm = some accSharedMemory.mk0 :=
  (c5_amended sessionCached).2.2 rfl

/-- C8 counterexample: starting from an unattached holder, with the
physics segment present and the graphics segment absent, the read cycle
fails — and the physics handle attached earlier in that same attempt is
still held afterwards.  This refutes the claim that a failed attach leaves
no earlier-opened handle held. -/
theorem c8_counterexample :
    okB (accSharedMemory.mk0.read_shared_memory envGraphicsDown).result = false ∧
    (accSharedMemory.mk0.read_shared_memory envGraphicsDown).handles.physics_sm = some () :=
  ⟨rfl, rfl⟩

/-- C8 amended: whenever the physics segment attaches but the graphics
segment fails to attach in the same read cycle, the cycle raises and the
session keeps holding the physics handle opened earlier in that attempt
(it is retained and reused by later attempts, not released). -/
theorem c8_amended : ∀ (h : accSharedMemory) (env : AttachEnv),
    h.physics_sm = none → h.graphics_sm = none →
    env.physics_ok = true → env.graphics_ok = false →
    (h.read_shared_memory env).result = .error .notFound ∧
    (h.read_shared_memory env).handles.physics_sm = some () := by
  intro h env hp hg hpo hgo
  simp [accSharedMemory.read_shared_memory, hp, hg, hpo, hgo]

/-- Witness for C8: the amended theorem applied to the fresh holder and
the concrete environment with the graphics segment missing. -/
theorem c8_witness :
    (accSharedMemory.mk0.read_shared_memory envGraphicsDown).result = .error .notFound :=
  (c8_amended accSharedMemory.mk0 envGraphicsDown rfl rfl rfl rfl).1

/-- C1 counterexample: a graphics buffer of the declared size (1420
bytes), all zero except that its status field holds the undefined enum
code 4, makes `read_graphics_map` raise instead of returning a record.
This refutes the claim that decoding is total on every buffer of the
declared segment size. -/
theorem c1_counterexample : okB (read_graphics_map graphicsStatus4Buf) = false := rfl

/-- C1 amended: decoding the physics segment is total — on every buffer of
the declared 732-byte size it returns a fully-populated record — and the
all-zero graphics and static buffers also decode successfully; but
graphics and static decoding are not total on arbitrary byte contents,
since an undefined enum code (any enum field except penalty) or invalid
UTF-8 in a string field raises. -/
theorem c1_amended :
    (∀ b : Buffer, b.size = 732 → okB (read_physic_map b) = true) ∧
    okB (read_graphics_map graphicsZeroBuf) = true ∧
    okB (read_static_map staticZeroBuf) = true := by
  refine ⟨fun b hb => ?_, by decide, by decide⟩
  simp [read_physic_map, unpack_int_ok, unpack_f32_ok, hb]

/-- Witness for C1: the amended totality theorem applied to the concrete
all-zero physics buffer. -/
theorem c1_witness : okB (read_physic_map physZeroBuf) = true :=
  c1_amended.1 physZeroBuf rfl

/-- C2 counterexample: a graphics buffer whose flag field (an enum-backed
int32) holds the undefined code 9 makes decoding raise, instead of
returning an unknown-variant wrapper carrying the raw integer.  This
refutes the claim that every enum-backed field maps unknown codes to an
unknown wrapper without raising. -/
theorem c2_counterexample : okB (read_graphics_map graphicsFlag9Buf) = false := rfl

set_option maxHeartbeats 2000000 in
/-- C2 amended: every defined enum code decodes to its variant; but only
the penalty field tolerates unknown codes, mapping them to the fixed
`UnknownValue` member (which does not carry the raw integer); the status,
session-type, flag, track-grip and rain-intensity lookups raise on every
code outside their defined range. -/
theorem c2_amended :
    (∀ p : ACC_STATUS, ACC_STATUS.ofInt p.toInt = .ok p) ∧
    (∀ p : ACC_SESSION_TYPE, ACC_SESSION_TYPE.ofInt p.toInt = .ok p) ∧
    (∀ p : ACC_FLAG_TYPE, ACC_FLAG_TYPE.ofInt p.toInt = .ok p) ∧
    (∀ p : ACC_TRACK_GRIP_STATUS, ACC_TRACK_GRIP_STATUS.ofInt p.toInt = .ok p) ∧
    (∀ p : ACC_RAIN_INTENSITY, ACC_RAIN_INTENSITY.ofInt p.toInt = .ok p) ∧
    (∀ p : ACC_PENALTY_TYPE, ACC_PENALTY_TYPE.ofInt p.toInt = .ok p) ∧
    (∀ v : Int, okB (ACC_STATUS.ofInt v) = true ↔ (0 ≤ v ∧ v ≤ 3)) ∧
    (∀ v : Int, okB (ACC_SESSION_TYPE.ofInt v) = true ↔ (-1 ≤ v ∧ v ≤ 8)) ∧
    (∀ v : Int, okB (ACC_FLAG_TYPE.ofInt v) = true ↔ (0 ≤ v ∧ v ≤ 8)) ∧
    (∀ v : Int, okB (ACC_TRACK_GRIP_STATUS.ofInt v) = true ↔ (0 ≤ v ∧ v ≤ 6)) ∧
    (∀ v : Int, okB (ACC_RAIN_INTENSITY.ofInt v) = true ↔ (0 ≤ v ∧ v ≤ 5)) ∧
    (∀ (v : Int) (p : ACC_PENALTY_TYPE),
      ACC_PENALTY_TYPE.ofInt v = .ok p → penalty_workarround v = p) ∧
    (∀ v : Int, okB (ACC_PENALTY_TYPE.ofInt v) = false →
      penalty_workarround v = .UnknownValue) := by
  refine ⟨by intro p; cases p <;> rfl, by intro p; cases p <;> rfl,
    by intro p; cases p <;> rfl, by intro p; cases p <;> rfl,
    by intro p; cases p <;> rfl, by intro p; cases p <;> rfl,
    ?_, ?_, ?_, ?_, ?_, ?_, ?_⟩
  · intro v; unfold ACC_STATUS.ofInt; split_ifs <;> simp [okB] <;> omega
  · intro v; unfold ACC_SESSION_TYPE.ofInt; split_ifs <;> simp [okB] <;> omega
  · intro v; unfold ACC_FLAG_TYPE.ofInt; split_ifs <;> simp [okB] <;> omega
  · intro v; unfold ACC_TRACK_GRIP_STATUS.ofInt; split_ifs <;> simp [okB] <;> omega
  · intro v; unfold ACC_RAIN_INTENSITY.ofInt; split_ifs <;> simp [okB] <;> omega
  · intro v p h
    unfold penalty_workarround
    rw [h]
  · intro v h
    unfold penalty_workarround
    cases hres : ACC_PENALTY_TYPE.ofInt v with
    | ok p => rw [hres] at h; simp [okB] at h
    | error e => rfl

theorem utf8DecodeAux_ne_zero :
    ∀ (fuel : Nat) (bs cps : List Nat), utf8DecodeAux fuel bs = some cps →
      (∀ x ∈ bs, x ≠ 0) → ∀ c ∈ cps, c ≠ 0 := by
  intro fuel
  induction fuel with
  | zero =>
    intro bs cps h hb
    cases bs with
    | nil =>
      simp only [utf8DecodeAux, Option.some.injEq] at h
      subst h
      simp
    | cons b rest => simp [utf8DecodeAux] at h
  | succ fuel ih =>
    intro bs cps h hb
    cases bs with
    | nil =>
      simp only [utf8DecodeAux, Option.some.injEq] at h
      subst h
      simp
    | cons b rest =>
      simp only [utf8DecodeAux] at h
      by_cases h127 : b ≤ 127
      · rw [if_pos h127] at h
        cases hrec : utf8DecodeAux fuel rest with
        | none => rw [hrec] at h; simp at h
        | some cps2 =>
          rw [hrec] at h
          simp only [Option.map_some', Option.some.injEq] at h
          subst h
          intro c hc
          rcases List.mem_cons.mp hc with hceq | hctail
          · subst hceq; exact hb c (List.mem_cons_self _ _)
          · exact ih rest cps2 hrec (fun x hx => hb x (List.mem_cons_of_mem _ hx)) c hctail
      · rw [if_neg h127] at h
        by_cases h2 : (194 ≤ b && b ≤ 223) = true
        · rw [if_pos h2] at h
          cases rest with
          | nil => simp at h
          | cons c1 rest2 =>
            simp only [] at h
            by_cases hc1 : isCont c1 = true
            · rw [if_pos hc1] at h
              cases hrec : utf8DecodeAux fuel rest2 with
              | none => rw [hrec] at h; simp at h
              | some cps2 =>
                rw [hrec] at h
                simp only [Option.map_some', Option.some.injEq] at h
                subst h
                intro c hc
                rcases List.mem_cons.mp hc with hceq | hctail
                · subst hceq
                  simp only [Bool.and_eq_true, decide_eq_true_eq] at h2
                  omega
                · exact ih rest2 cps2 hrec
                    (fun x hx => hb x (List.mem_cons_of_mem _ (List.mem_cons_of_mem _ hx)))
                    c hctail
            · rw [if_neg hc1] at h; simp at h
        · rw [if_neg h2] at h
          by_cases h3 : (224 ≤ b && b ≤ 239) = true
          · rw [if_pos h3] at h
            cases rest with
            | nil => simp at h
            | cons c1 rest2 =>
              cases rest2 with
              | nil => simp at h
              | cons c2 rest3 =>
                simp only [] at h
                by_cases hcond :
                    (((if b = 224 then 160 else 128) ≤ c1 &&
                      c1 ≤ (if b = 237 then 159 else 191)) && isCont c2) = true
                · rw [if_pos hcond] at h
                  cases hrec : utf8DecodeAux fuel rest3 with
                  | none => rw [hrec] at h; simp at h
                  | some cps2 =>
                    rw [hrec] at h
                    simp only [Option.map_some', Option.some.injEq] at h
                    subst h
                    intro c hc
                    rcases List.mem_cons.mp hc with hceq | hctail
                    · subst hceq
                      simp only [Bool.and_eq_true, decide_eq_true_eq, isCont] at hcond h3
                      rcases hcond with ⟨⟨hlo, hhi⟩, hc2lo, hc2hi⟩
                      by_cases hb224 : b = 224
                      · subst hb224
                        simp at hlo
                        omega
                      · rw [if_neg hb224] at hlo
                        omega
                    · exact ih rest3 cps2 hrec
                        (fun x hx => hb x (List.mem_cons_of_mem _ (List.mem_cons_of_mem _
                          (List.mem_cons_of_mem _ hx)))) c hctail
                · rw [if_neg hcond] at h; simp at h
          · rw [if_neg h3] at h
            by_cases h4 : (240 ≤ b && b ≤ 244) = true
            · rw [if_pos h4] at h
              cases rest with
              | nil => simp at h
              | cons c1 rest2 =>
                cases rest2 with
                | nil => simp at h
                | cons c2 rest3 =>
                  cases rest3 with
                  | nil => simp at h
                  | cons c3 rest4 =>
                    simp only [] at h
                    by_cases hcond :
                        (((if b = 240 then 144 else 128) ≤ c1 &&
                          c1 ≤ (if b = 244 then 143 else 191)) && isCont c2 && isCont c3) = true
                    · rw [if_pos hcond] at h
                      cases hrec : utf8DecodeAux fuel rest4 with
                      | none => rw [hrec] at h; simp at h
                      | some cps2 =>
                        rw [hrec] at h
                        simp only [Option.map_some', Option.some.injEq] at h
                        subst h
                        intro c hc
                        rcases List.mem_cons.mp hc with hceq | hctail
                        · subst hceq
                          simp only [Bool.and_eq_true, decide_eq_true_eq, isCont] at hcond h4
                          rcases hcond with ⟨⟨⟨hlo, hhi⟩, hc2lo, hc2hi⟩, hc3lo, hc3hi⟩
                          by_cases hb240 : b = 240
                          · subst hb240
                            simp at hlo
                            omega
                          · rw [if_neg hb240] at hlo
                            omega
                        · exact ih rest4 cps2 hrec
                            (fun x hx => hb x (List.mem_cons_of_mem _ (List.mem_cons_of_mem _
                              (List.mem_cons_of_mem _ (List.mem_cons_of_mem _ hx))))) c hctail
                    · rw [if_neg hcond] at h; simp at h
            · rw [if_neg h4] at h; simp at h

theorem utf8Decode_ne_zero {bs cps : List Nat} (h : utf8Decode bs = some cps)
    (hb : ∀ x ∈ bs, x ≠ 0) : ∀ c ∈ cps, c ≠ 0 :=
  utf8DecodeAux_ne_zero bs.length bs cps h hb

/-- C9 counterexample: a 4-byte field of 0xFF bytes has no NUL within
`max_len`, yet `unpack_string` raises (invalid UTF-8) instead of returning
the full `max_len` bytes.  This refutes the universally quantified second
half of the claim. -/
theorem c9_counterexample : okB (unpack_string ffBuf 0 4) = false := rfl

/-- C9 amended: a field whose bytes are "GT3", NUL, "garbage" decodes to
"GT3" (code points 71, 84, 51); and for every field whose `max_len` bytes
contain no NUL and decode as valid UTF-8, the result is the decode of the
full `max_len` bytes, untruncated.  (On invalid UTF-8 the decoder raises,
as the counterexample shows.) -/
theorem c9_amended :
    unpack_string gt3Buf 0 11 = .ok [71, 84, 51] ∧
    (∀ (b : Buffer) (off n : Nat) (cps : List Nat),
      off + n ≤ b.size →
      (∀ x ∈ fieldBytes b off n, x ≠ 0) →
      utf8Decode (fieldBytes b off n) = some cps →
      unpack_string b off n = .ok cps) := by
  constructor
  · rfl
  · intro b off n cps hle hnz hdec
    have hoff : off ≤ b.size := le_trans (Nat.le_add_right off n) hle
    have h0 : ¬(0 ∈ cps) := fun hm => utf8Decode_ne_zero hdec hnz 0 hm rfl
    simp only [unpack_string, if_pos hoff, hdec, if_neg h0]

/-- Witness for C9: the amended theorem applied to a concrete 5-byte
all-ASCII field with no NUL, which decodes to all five bytes. -/
theorem c9_witness : unpack_string aBuf 0 5 = .ok [65, 65, 65, 65, 65] :=
  c9_amended.2 aBuf 0 5 [65, 65, 65, 65, 65] (by decide) (by decide) (by decide)

theorem connect_snd_last_data (s : ACCTelemetry) (ck : Bool) :
    ((s.connect ck).2).last_data = s.last_data := by
  cases ck <;> simp [ACCTelemetry.connect]

theorem connect_snd_last_connect_attempt (s : ACCTelemetry) (ck : Bool) :
    ((s.connect ck).2).last_connect_attempt = s.last_connect_attempt := by
  cases ck <;> simp [ACCTelemetry.connect]

theorem read_data_gated (s : ACCTelemetry) (ck : Bool) (env : AttachEnv) (t : ℚ)
    (h : t - s.last_read_time < s.min_update_interval) :
    s.read_data ck env t = ⟨s.last_data, s, false, false⟩ := by
  simp only [ACCTelemetry.read_data, if_pos h]

theorem get_telemetry_eq_ok (s : ACCTelemetry) (h : accSharedMemory) (env : AttachEnv)
    (t : ℚ) (m : ACC_map) (hconn : s.connected = true) (hasm : s.asm = some h)
    (hres : (h.read_shared_memory env).result = .ok m) :
    s.get_telemetry env t =
      (some (toTelemetryData t m), { s with asm := some (h.read_shared_memory env).handles }) := by
  simp [ACCTelemetry.get_telemetry, ACCTelemetry.is_connected, hconn, hasm, hres]

theorem get_telemetry_eq_err (s : ACCTelemetry) (h : accSharedMemory) (env : AttachEnv)
    (t : ℚ) (e : Err) (hconn : s.connected = true) (hasm : s.asm = some h)
    (hres : (h.read_shared_memory env).result = .error e) :
    s.get_telemetry env t =
      (none, { s with asm := some (h.read_shared_memory env).handles }) := by
  simp [ACCTelemetry.get_telemetry, ACCTelemetry.is_connected, hconn, hasm, hres]

theorem read_data_conn_ok (s : ACCTelemetry) (ck : Bool) (env : AttachEnv) (t : ℚ)
    (h : accSharedMemory) (m : ACC_map)
    (hconn : s.connected = true) (hasm : s.asm = some h)
    (hgate : ¬(t - s.last_read_time < s.min_update_interval))
    (hres : (h.read_shared_memory env).result = .ok m) :
    s.read_data ck env t =
      ⟨some (toTelemetryData t m),
       { s with
          last_read_time := t
          asm := some (h.read_shared_memory env).handles
          last_data := some (toTelemetryData t m) }, true, false⟩ := by
  have hgt := get_telemetry_eq_ok { s with last_read_time := t } h env t m hconn hasm hres
  simp only [ACCTelemetry.read_data, if_neg hgate, hgt]
  simp [ACCTelemetry.is_connected, hconn, hasm]

theorem read_data_conn_err (s : ACCTelemetry) (ck : Bool) (env : AttachEnv) (t : ℚ)
    (h : accSharedMemory) (e : Err)
    (hconn : s.connected = true) (hasm : s.asm = some h)
    (hgate : ¬(t - s.last_read_time < s.min_update_interval))
    (hres : (h.read_shared_memory env).result = .error e) :
    s.read_data ck env t =
      ⟨s.last_data,
       { s with
          last_read_time := t
          asm := some (h.read_shared_memory env).handles },
       true, false⟩ := by
  have hgt := get_telemetry_eq_err { s with last_read_time := t } h env t e hconn hasm hres
  simp only [ACCTelemetry.read_data, if_neg hgate, hgt]
  simp [ACCTelemetry.is_connected, hconn, hasm]

theorem read_data_reconnect (s : ACCTelemetry) (ck : Bool) (env : AttachEnv) (t : ℚ)
    (hic : s.is_connected = false)
    (hgate : ¬(t - s.last_read_time < s.min_update_interval))
    (hback : 5 < t - s.last_connect_attempt) :
    s.read_data ck env t =
      ⟨s.last_data,
       (({ s with
            last_read_time := t
            last_connect_attempt := t } : ACCTelemetry).connect ck).2,
       false, true⟩ := by
  have hic1 : ({ s with last_read_time := t } : ACCTelemetry).is_connected = false := hic
  simp only [ACCTelemetry.read_data, if_neg hgate, hic1, Bool.false_eq_true, if_false,
    if_pos hback]
  rw [connect_snd_last_data]

theorem read_data_backoff (s : ACCTelemetry) (ck : Bool) (env : AttachEnv) (t : ℚ)
    (hic : s.is_connected = false)
    (hgate : ¬(t - s.last_read_time < s.min_update_interval))
    (hback : ¬(5 < t - s.last_connect_attempt)) :
    s.read_data ck env t = ⟨s.last_data, { s with last_read_time := t }, false, false⟩ := by
  have hic1 : ({ s with last_read_time := t } : ACCTelemetry).is_connected = false := hic
  simp only [ACCTelemetry.read_data, if_neg hgate, hic1, Bool.false_eq_true, if_false,
    if_neg hback]

/-- C7: once the session is disconnected, repeated `read_data` calls issue
at most one reconnect attempt per 5-second backoff window: a call whose
time is within 5 seconds of the last attempt makes no attempt; an attempt
stamps the attempt time; and a call that makes no attempt leaves the
attempt time unchanged. -/
theorem c7_backoff : ∀ (s : ACCTelemetry) (ck : Bool) (env : AttachEnv) (t : ℚ),
    (t - s.last_connect_attempt ≤ 5 → (s.read_data ck env t).didConnectAttempt = false) ∧
    ((s.read_data ck env t).didConnectAttempt = true →
      (s.read_data ck env t).state.last_connect_attempt = t) ∧
    ((s.read_data ck env t).didConnectAttempt = false →
      (s.read_data ck env t).state.last_connect_attempt = s.last_connect_attempt) := by
  intro s ck env t
  by_cases hgate : t - s.last_read_time < s.min_update_interval
  · rw [read_data_gated s ck env t hgate]
    refine ⟨fun _ => rfl, fun hc => by simp at hc, fun _ => rfl⟩
  · by_cases hic : s.is_connected = true
    · have hconn : s.connected = true := by
        simp [ACCTelemetry.is_connected] at hic; exact hic.1
      have hsome : s.asm.isSome = true := by
        simp [ACCTelemetry.is_connected] at hic; exact hic.2
      cases hasm : s.asm with
      | none => rw [hasm] at hsome; cases hsome
      | some h =>
        cases hres : (h.read_shared_memory env).result with
        | ok m =>
          rw [read_data_conn_ok s ck env t h m hconn hasm hgate hres]
          refine ⟨fun _ => rfl, fun hc => by simp at hc, fun _ => rfl⟩
        | error e =>
          rw [read_data_conn_err s ck env t h e hconn hasm hgate hres]
          refine ⟨fun _ => rfl, fun hc => by simp at hc, fun _ => rfl⟩
    · have hic2 : s.is_connected = false := by
        cases hb : s.is_connected
        · rfl
        · exact absurd hb hic
      by_cases hback : 5 < t - s.last_connect_attempt
      · rw [read_data_reconnect s ck env t hic2 hgate hback]
        refine ⟨fun hle => absurd hback (by linarith), fun _ => ?_, fun hc => by simp at hc⟩
        simpa using connect_snd_last_connect_attempt
          { s with last_read_time := t, last_connect_attempt := t } ck
      · rw [read_data_backoff s ck env t hic2 hgate hback]
        refine ⟨fun _ => rfl, fun hc => by simp at hc, fun _ => rfl⟩

/-- Witness for C7: the fresh (disconnected) session called at time 3,
within 5 seconds of the initial attempt stamp 0, makes no reconnect
attempt. -/
theorem c7_witness : (ACCTelemetry.init.read_data true envAllZero 3).didConnectAttempt = false :=
  (c7_backoff ACCTelemetry.init true envAllZero 3).1 (by norm_num [ACCTelemetry.init])

theorem read_data_out_of_failure (s : ACCTelemetry) (ck : Bool) (env : AttachEnv) (t : ℚ)
    (hfail : ∀ hh, s.asm = some hh → okB (hh.read_shared_memory env).result = false) :
    (s.read_data ck env t).out = s.last_data := by
  by_cases hgate : t - s.last_read_time < s.min_update_interval
  · rw [read_data_gated s ck env t hgate]
  · by_cases hic : s.is_connected = true
    · have hconn : s.connected = true := by
        simp [ACCTelemetry.is_connected] at hic; exact hic.1
      have hsome : s.asm.isSome = true := by
        simp [ACCTelemetry.is_connected] at hic; exact hic.2
      cases hasm : s.asm with
      | none => rw [hasm] at hsome; cases hsome
      | some hh =>
        cases hres : (hh.read_shared_memory env).result with
        | ok m =>
          have hc := hfail hh hasm
          rw [hres] at hc
          simp [okB] at hc
        | error e =>
          rw [read_data_conn_err s ck env t hh e hconn hasm hgate hres]
    · have hic2 : s.is_connected = false := by
        cases hb : s.is_connected
        · rfl
        · exact absurd hb hic
      by_cases hback : 5 < t - s.last_connect_attempt
      · rw [read_data_reconnect s ck env t hic2 hgate hback]
      · rw [read_data_backoff s ck env t hic2 hgate hback]

/-- C3: if the underlying read succeeded on cycle N−1 (so the session
cached that sample) and the underlying read against the resulting handles
fails on cycle N, then the cycle-N call returns exactly the cycle-N−1
value — never an exception (the model is total) and never an absent
result. -/
theorem c3_cache_serves_last_good :
    ∀ (s : ACCTelemetry) (h : accSharedMemory) (ck1 ck2 : Bool)
      (env1 env2 : AttachEnv) (t1 t2 : ℚ),
      s.connected = true → s.asm = some h →
      ¬(t1 - s.last_read_time < s.min_update_interval) →
      okB (h.read_shared_memory env1).result = true →
      okB (((h.read_shared_memory env1).handles).read_shared_memory env2).result = false →
      (((s.read_data ck1 env1 t1).state.read_data ck2 env2 t2).out =
          (s.read_data ck1 env1 t1).out ∧
        (s.read_data ck1 env1 t1).out ≠ none) := by
  intro s h ck1 ck2 env1 env2 t1 t2 hconn hasm hgate hok hfail
  cases hres : (h.read_shared_memory env1).result with
  | error e => rw [hres] at hok; simp [okB] at hok
  | ok m =>
    have e1 := read_data_conn_ok s ck1 env1 t1 h m hconn hasm hgate hres
    rw [e1]
    constructor
    · rw [read_data_out_of_failure _ ck2 env2 t2
        (fun hh hhh => by cases Option.some.inj hhh; exact hfail)]
    · simp

/-- Witness for C3: a connected session with attached handles reads
successfully at time 1 from all-zero segments; at time 2 the graphics
segment holds an undefined status code so the read fails, and the call
returns the cycle-1 sample. -/
theorem c3_witness :
    ((sessionConnected.read_data true envAllZero 1).state.read_data true envGraphicsBad 2).out =
        (sessionConnected.read_data true envAllZero 1).out ∧
      (sessionConnected.read_data true envAllZero 1).out ≠ none :=
  c3_cache_serves_last_good sessionConnected attachedSM true true envAllZero envGraphicsBad 1 2
    rfl rfl (by norm_num [sessionConnected]) rfl rfl

/-- C4 counterexample: the default minimum update interval is 1/20 s
= 50 ms, which is not approximately 20 ms (it is not even at most 25 ms).
This refutes the claim's "default minimum interval is approximately
20 ms". -/
theorem c4_counterexample :
    ACCTelemetry.init.min_update_interval = 1/20 ∧
      ¬(ACCTelemetry.init.min_update_interval ≤ 1/40) :=
  ⟨rfl, by norm_num [ACCTelemetry.init]⟩

/-- C4 amended: the default minimum update interval is 50 ms (1/20 s),
not ~20 ms; and for two consecutive `read_data` calls whose times differ
by less than the configured interval, if the first performed a real
underlying read then the second performs none, returns the same cached
sample, and leaves the state untouched — so at most one real underlying
read happens across the two calls. -/
theorem c4_amended :
    ACCTelemetry.init.min_update_interval = 1/20 ∧
    (∀ (s : ACCTelemetry) (ck1 ck2 : Bool) (env1 env2 : AttachEnv) (t1 t2 : ℚ),
      t2 - t1 < s.min_update_interval →
      (s.read_data ck1 env1 t1).didRead = true →
      (((s.read_data ck1 env1 t1).state.read_data ck2 env2 t2).didRead = false ∧
       ((s.read_data ck1 env1 t1).state.read_data ck2 env2 t2).out =
         (s.read_data ck1 env1 t1).out ∧
       ((s.read_data ck1 env1 t1).state.read_data ck2 env2 t2).state =
         (s.read_data ck1 env1 t1).state)) := by
  refine ⟨rfl, ?_⟩
  intro s ck1 ck2 env1 env2 t1 t2 hint hdid
  by_cases hgate : t1 - s.last_read_time < s.min_update_interval
  · rw [read_data_gated s ck1 env1 t1 hgate] at hdid
    simp at hdid
  · by_cases hic : s.is_connected = true
    · have hconn : s.connected = true := by
        simp [ACCTelemetry.is_connected] at hic; exact hic.1
      have hsome : s.asm.isSome = true := by
        simp [ACCTelemetry.is_connected] at hic; exact hic.2
      cases hasm : s.asm with
      | none => rw [hasm] at hsome; cases hsome
      | some h =>
        cases hres : (h.read_shared_memory env1).result with
        | ok m =>
          rw [read_data_conn_ok s ck1 env1 t1 h m hconn hasm hgate hres]
          rw [read_data_gated _ ck2 env2 t2 hint]
          exact ⟨rfl, rfl, rfl⟩
        | error e =>
          rw [read_data_conn_err s ck1 env1 t1 h e hconn hasm hgate hres]
          rw [read_data_gated _ ck2 env2 t2 hint]
          exact ⟨rfl, rfl, rfl⟩
    · have hic2 : s.is_connected = false := by
        cases hb : s.is_connected
        · rfl
        · exact absurd hb hic
      by_cases hback : 5 < t1 - s.last_connect_attempt
      · rw [read_data_reconnect s ck1 env1 t1 hic2 hgate hback] at hdid
        simp at hdid
      · rw [read_data_backoff s ck1 env1 t1 hic2 hgate hback] at hdid
        simp at hdid

/-- Witness for C4: a connected session reads at time 1; a second call
1/100 s later (within the 1/20 s interval) performs no underlying read. -/
theorem c4_witness :
    ((sessionConnected.read_data true envAllZero 1).state.read_data true envAllZero
      (1 + 1/100)).didRead = false := by
  cases hres : (attachedSM.read_shared_memory envAllZero).result with
  | error e =>
    have hok : okB (attachedSM.read_shared_memory envAllZero).result = true := rfl
    rw [hres] at hok
    simp [okB] at hok
  | ok m =>
    have hdid : (sessionConnected.read_data true envAllZero 1).didRead = true := by
      rw [read_data_conn_ok sessionConnected true envAllZero 1 attachedSM m rfl rfl
        (by norm_num [sessionConnected]) hres]
    exact (c4_amended.2 sessionConnected true true envAllZero envAllZero 1 (1 + 1/100)
      (by norm_num [sessionConnected]) hdid).1

/-- Witness for C2: the amended theorem applied to the undefined penalty
code 99, which the guarded penalty lookup maps to `UnknownValue`. -/
theorem c2_witness : penalty_workarround 99 = ACC_PENALTY_TYPE.UnknownValue :=
  c2_amended.2.2.2.2.2.2.2.2.2.2.2.2 99 (by rfl)
